import Mathlib

/-!
Shallow embedding of the safety-alarm firmware in src/Task 3/main.cpp.

The program is a single polling loop over process-wide mutable state.  We
model the mutable globals as a structure `SysState`, the per-iteration pin
and UART samples as a structure `Inputs`, and each C++ function as a Lean
function from inputs and state to a new state and/or a list of UART write
calls.  A UART write call `uartUsb.write(ptr, n)` transmits exactly `n`
bytes starting at `ptr`; since every `ptr` is a NUL-terminated string
literal and every `n` is at most the literal's length plus one, we model a
write call as the first `n` bytes of the literal followed by its NUL
terminator.  The Mbed `Timer` is modelled by the accumulated elapsed time
since the last reset, advanced by an arbitrary nonnegative rational `dt`
each iteration.
-/

namespace AlarmSystem

/-- Per-iteration samples of the digital input pins, the optional byte
available on the UART, and the wall-clock time that elapsed since the
previous iteration's timer read. -/
structure Inputs where
  gasDetector : Bool
  overTempDetector : Bool
  aButton : Bool
  bButton : Bool
  cButton : Bool
  dButton : Bool
  enterButton : Bool
  uartIn : Option Char
  dt : ℚ
deriving Repr, DecidableEq

/-- The process-wide mutable globals of main.cpp: the alarm flag, the
incorrect-code counter (a C++ `int`), the three output LEDs, and the
elapsed time accumulated on `reportTimer` since its last reset. -/
structure SysState where
  alarmState : Bool
  numberOfIncorrectCodes : Int
  alarmLed : Bool
  incorrectCodeLed : Bool
  systemBlockedLed : Bool
  timerElapsed : ℚ
deriving Repr, DecidableEq

/-- State at the top of the loop after `outputsInit` and
`reportTimer.start()`: alarm off, counter zero, all LEDs off, timer zero. -/
def initialState : SysState :=
  { alarmState := false
    numberOfIncorrectCodes := 0
    alarmLed := false
    incorrectCodeLed := false
    systemBlockedLed := false
    timerElapsed := 0 }

/-- Bytes transmitted by `uartUsb.write(lit, n)` where `lit` is a
NUL-terminated string literal: the first `n` bytes of the literal's
characters followed by the terminating NUL. -/
def cwrite (lit : String) (n : Nat) : List Char :=
  (lit.data ++ [Char.ofNat 0]).take n

/-- Embedding of `alarmActivationUpdate`: if either hazard sensor reads
true the alarm flag is set, and the alarm LED is driven with the (possibly
just updated) alarm flag. -/
def alarmActivationUpdate (i : Inputs) (s : SysState) : SysState :=
  let s1 := if i.gasDetector || i.overTempDetector then
    { s with alarmState := true } else s
  { s1 with alarmLed := s1.alarmState }

/-- Embedding of `alarmDeactivationUpdate`: below the 5-strike lockout,
all four code buttons pressed with enter released clears the
incorrect-code LED; then enter pressed with that LED off and the alarm
active evaluates the code (a and b pressed, c and d released deactivates
and resets the counter, anything else lights the LED and increments the
counter).  At or past the lockout only the system-blocked LED is driven. -/
def alarmDeactivationUpdate (i : Inputs) (s : SysState) : SysState :=
  if s.numberOfIncorrectCodes < 5 then
    let s1 := if i.aButton && i.bButton && i.cButton && i.dButton && !i.enterButton then
      { s with incorrectCodeLed := false } else s
    if i.enterButton && !s1.incorrectCodeLed && s1.alarmState then
      if i.aButton && i.bButton && !i.cButton && !i.dButton then
        { s1 with alarmState := false, numberOfIncorrectCodes := 0 }
      else
        { s1 with incorrectCodeLed := true,
                  numberOfIncorrectCodes := s1.numberOfIncorrectCodes + 1 }
    else s1
  else
    { s with systemBlockedLed := true }

/-- Embedding of `availableCommands`: the four help-text write calls with
the byte counts the source passes to `uartUsb.write`. -/
def availableCommands : List (List Char) :=
  [ cwrite "Available commands:\r\n" 21
  , cwrite "Press '1' to get the alarm state\r\n" 33
  , cwrite "Press '2' to check gas status\r\n" 32
  , cwrite "Press '3' to check temperature status\r\n\r\n" 41 ]

/-- Embedding of `uartTask`: if a byte is available it is read and
dispatched; the function performs the listed write calls and never
modifies the state. -/
def uartTask (i : Inputs) (s : SysState) : List (List Char) :=
  match i.uartIn with
  | none => []
  | some receivedChar =>
    if receivedChar = '1' then
      [ cwrite (if s.alarmState then "The alarm is activated\r\n"
                else "The alarm is not activated\r\n")
               (if s.alarmState then 24 else 28) ]
    else if receivedChar = '2' then
      [ cwrite (if i.gasDetector then "Gas detected!\r\n" else "No gas detected\r\n")
               (if i.gasDetector then 15 else 18) ]
    else if receivedChar = '3' then
      [ cwrite (if i.overTempDetector then "Over temperature detected!\r\n"
                else "Temperature normal\r\n")
               (if i.overTempDetector then 28 else 20) ]
    else
      availableCommands

/-- Embedding of `sendStatusReport`: `snprintf` formats the report into a
128-byte buffer (the text is always far shorter, so no truncation occurs)
and exactly the formatted characters are written. -/
def sendStatusReport (i : Inputs) (s : SysState) : List Char :=
  ("\r\n[STATUS REPORT]\r\nAlarm: " ++ (if s.alarmState then "ON" else "OFF")
    ++ "\r\nGas: " ++ (if i.gasDetector then "Detected" else "Normal")
    ++ "\r\nTemperature: " ++ (if i.overTempDetector then "High" else "Normal")
    ++ "\r\n\r\n").data

/-- Embedding of `sendWarningIfNeeded`: one write call for gas when the
gas sensor reads true, then one for temperature when the over-temperature
sensor reads true, with the byte counts the source passes. -/
def sendWarningIfNeeded (i : Inputs) : List (List Char) :=
  (if i.gasDetector then [cwrite "[WARNING] Gas levels unsafe!\r\n" 29] else [])
    ++ (if i.overTempDetector then [cwrite "[WARNING] Temperature too high!\r\n" 33] else [])

/-- One iteration of the `while (true)` loop in `main`: activation update,
deactivation update, UART dispatch, the 5-second periodic report check
(emitting and resetting the timer when the elapsed reading is at least 5),
then the continuous warnings.  Returns the post-iteration state and the
sequence of UART write calls the iteration performed, in program order. -/
def loopStep (i : Inputs) (s : SysState) : SysState × List (List Char) :=
  let s1 := alarmActivationUpdate i s
  let s2 := alarmDeactivationUpdate i s1
  let uartOut := uartTask i s2
  let timerRead := s2.timerElapsed + i.dt
  let reportOut := if 5 ≤ timerRead then [sendStatusReport i s2] else []
  let s3 := if 5 ≤ timerRead then { s2 with timerElapsed := 0 }
            else { s2 with timerElapsed := timerRead }
  (s3, uartOut ++ reportOut ++ sendWarningIfNeeded i)

/-- The state component of one loop iteration. -/
def stepState (i : Inputs) (s : SysState) : SysState :=
  (loopStep i s).1

/-- The UART output of one loop iteration. -/
def stepOut (i : Inputs) (s : SysState) : List (List Char) :=
  (loopStep i s).2

/-- State after running the loop once per input sample in the list. -/
def runState (s : SysState) (l : List Inputs) : SysState :=
  l.foldl (fun s i => stepState i s) s

/-- Input sample with both sensors quiet, all buttons released, no UART
byte available and no time elapsed. -/
def idleInputs : Inputs :=
  { gasDetector := false
    overTempDetector := false
    aButton := false
    bButton := false
    cButton := false
    dButton := false
    enterButton := false
    uartIn := none
    dt := 0 }

/-- The valid deactivation sequence as sampled in one iteration: lockout
counter below 5, enter pressed, incorrect-code LED off, alarm active when
`alarmDeactivationUpdate` runs (that is, after the activation update), and
the a and b buttons pressed with c and d released. -/
def validDeactivationObserved (i : Inputs) (s : SysState) : Bool :=
  decide (s.numberOfIncorrectCodes < 5) && i.enterButton && !s.incorrectCodeLed
    && (alarmActivationUpdate i s).alarmState
    && i.aButton && i.bButton && !i.cButton && !i.dButton

/-- No iteration of the trace, run from the given state, observes the
valid deactivation sequence. -/
def noDeactivationObserved : SysState → List Inputs → Bool
  | _, [] => true
  | s, i :: l => !validDeactivationObserved i s && noDeactivationObserved (stepState i s) l

/-- The condition under which `alarmDeactivationUpdate` clears the
incorrect-code LED: lockout counter below 5, all four code buttons
pressed, enter released. -/
def clearConditionMet (i : Inputs) (s : SysState) : Bool :=
  decide (s.numberOfIncorrectCodes < 5)
    && i.aButton && i.bButton && i.cButton && i.dButton && !i.enterButton

/-- No iteration of the trace, run from the given state, satisfies the
incorrect-code-LED clear condition. -/
def noClearEvents : SysState → List Inputs → Bool
  | _, [] => true
  | s, i :: l => !clearConditionMet i s && noClearEvents (stepState i s) l

/-- The periodic-report condition of one iteration: the timer reading
(elapsed time accumulated since the last reset plus this iteration's
increment) has reached 5. -/
def reportEmitted (i : Inputs) (s : SysState) : Bool :=
  decide (5 ≤ s.timerElapsed + i.dt)

/-- No iteration of the trace, run from the given state, reaches the
periodic-report condition. -/
def noReportEmitted : SysState → List Inputs → Bool
  | _, [] => true
  | s, i :: l => !reportEmitted i s && noReportEmitted (stepState i s) l

/-- Recognizes the periodic status report among the write calls of an
iteration: it is the only message that begins with the bytes CR LF. -/
def isReportMsg (m : List Char) : Bool :=
  m.take 2 == [Char.ofNat 13, Char.ofNat 10]

/-- The state component of an iteration is the two alarm updates followed
by the timer bookkeeping of the periodic-report check. -/
lemma stepState_def (i : Inputs) (s : SysState) :
    stepState i s
      = (fun s2 => if 5 ≤ s2.timerElapsed + i.dt then { s2 with timerElapsed := 0 }
          else { s2 with timerElapsed := s2.timerElapsed + i.dt })
        (alarmDeactivationUpdate i (alarmActivationUpdate i s)) := rfl

/-- The write calls of an iteration are the UART dispatch output, then the
periodic report when due, then the warnings. -/
lemma stepOut_def (i : Inputs) (s : SysState) :
    stepOut i s
      = (fun s2 => uartTask i s2
          ++ (if 5 ≤ s2.timerElapsed + i.dt then [sendStatusReport i s2] else [])
          ++ sendWarningIfNeeded i)
        (alarmDeactivationUpdate i (alarmActivationUpdate i s)) := rfl

/-- One loop iteration on a cons trace. -/
lemma runState_cons (s : SysState) (i : Inputs) (l : List Inputs) :
    runState s (i :: l) = runState (stepState i s) l := rfl

lemma activation_alarmState (i : Inputs) (s : SysState) :
    (alarmActivationUpdate i s).alarmState
      = (s.alarmState || (i.gasDetector || i.overTempDetector)) := by
  cases hg : i.gasDetector <;> cases ho : i.overTempDetector <;>
    simp [alarmActivationUpdate, hg, ho]

lemma activation_alarmLed (i : Inputs) (s : SysState) :
    (alarmActivationUpdate i s).alarmLed
      = (s.alarmState || (i.gasDetector || i.overTempDetector)) := by
  cases hg : i.gasDetector <;> cases ho : i.overTempDetector <;>
    simp [alarmActivationUpdate, hg, ho]

lemma activation_rest (i : Inputs) (s : SysState) :
    (alarmActivationUpdate i s).numberOfIncorrectCodes = s.numberOfIncorrectCodes
      ∧ (alarmActivationUpdate i s).incorrectCodeLed = s.incorrectCodeLed
      ∧ (alarmActivationUpdate i s).systemBlockedLed = s.systemBlockedLed
      ∧ (alarmActivationUpdate i s).timerElapsed = s.timerElapsed := by
  cases hg : i.gasDetector <;> cases ho : i.overTempDetector <;>
    simp [alarmActivationUpdate, hg, ho]

lemma deactivation_alarmState (i : Inputs) (s : SysState) :
    (alarmDeactivationUpdate i s).alarmState
      = (s.alarmState
          && !(decide (s.numberOfIncorrectCodes < 5) && i.enterButton && !s.incorrectCodeLed
                && s.alarmState && i.aButton && i.bButton && !i.cButton && !i.dButton)) := by
  rcases s with ⟨al, n, aled, icl, sbl, t⟩
  by_cases hn : n < 5 <;>
    cases he : i.enterButton <;> cases hicl : icl <;> cases hal : al <;>
    cases ha : i.aButton <;> cases hb : i.bButton <;> cases hc : i.cButton <;>
    cases hd : i.dButton <;>
    simp [alarmDeactivationUpdate, hn, he, hicl, hal, ha, hb, hc, hd]

lemma deactivation_alarmLed (i : Inputs) (s : SysState) :
    (alarmDeactivationUpdate i s).alarmLed = s.alarmLed := by
  rcases s with ⟨al, n, aled, icl, sbl, t⟩
  by_cases hn : n < 5 <;>
    cases he : i.enterButton <;> cases hicl : icl <;> cases hal : al <;>
    cases ha : i.aButton <;> cases hb : i.bButton <;> cases hc : i.cButton <;>
    cases hd : i.dButton <;>
    simp [alarmDeactivationUpdate, hn, he, hicl, hal, ha, hb, hc, hd]

lemma deactivation_timer (i : Inputs) (s : SysState) :
    (alarmDeactivationUpdate i s).timerElapsed = s.timerElapsed := by
  rcases s with ⟨al, n, aled, icl, sbl, t⟩
  by_cases hn : n < 5 <;>
    cases he : i.enterButton <;> cases hicl : icl <;> cases hal : al <;>
    cases ha : i.aButton <;> cases hb : i.bButton <;> cases hc : i.cButton <;>
    cases hd : i.dButton <;>
    simp [alarmDeactivationUpdate, hn, he, hicl, hal, ha, hb, hc, hd]

/-- The possible transitions of the incorrect-code counter in one call of
the deactivation update: unchanged, reset to zero, or incremented from a
value strictly below 5. -/
lemma deactivation_n_cases (i : Inputs) (s : SysState) :
    (alarmDeactivationUpdate i s).numberOfIncorrectCodes = s.numberOfIncorrectCodes
      ∨ (alarmDeactivationUpdate i s).numberOfIncorrectCodes = 0
      ∨ (s.numberOfIncorrectCodes < 5
          ∧ (alarmDeactivationUpdate i s).numberOfIncorrectCodes
              = s.numberOfIncorrectCodes + 1) := by
  rcases s with ⟨al, n, aled, icl, sbl, t⟩
  by_cases hn : n < 5 <;>
    cases he : i.enterButton <;> cases hicl : icl <;> cases hal : al <;>
    cases ha : i.aButton <;> cases hb : i.bButton <;> cases hc : i.cButton <;>
    cases hd : i.dButton <;>
    simp [alarmDeactivationUpdate, hn, he, hicl, hal, ha, hb, hc, hd]

/-- At or past the lockout threshold the deactivation update only drives
the system-blocked LED. -/
lemma deactivation_locked (i : Inputs) (s : SysState)
    (h : ¬ s.numberOfIncorrectCodes < 5) :
    alarmDeactivationUpdate i s = { s with systemBlockedLed := true } := by
  simp [alarmDeactivationUpdate, h]

lemma stepState_proj (i : Inputs) (s : SysState) :
    (stepState i s).alarmState
        = (alarmDeactivationUpdate i (alarmActivationUpdate i s)).alarmState
      ∧ (stepState i s).alarmLed
        = (alarmDeactivationUpdate i (alarmActivationUpdate i s)).alarmLed
      ∧ (stepState i s).numberOfIncorrectCodes
        = (alarmDeactivationUpdate i (alarmActivationUpdate i s)).numberOfIncorrectCodes
      ∧ (stepState i s).incorrectCodeLed
        = (alarmDeactivationUpdate i (alarmActivationUpdate i s)).incorrectCodeLed
      ∧ (stepState i s).systemBlockedLed
        = (alarmDeactivationUpdate i (alarmActivationUpdate i s)).systemBlockedLed := by
  rw [stepState_def]
  dsimp only
  split <;> simp

/-- Boolean characterization of the alarm flag after one iteration: it is
set when a hazard was sampled and cleared only by the valid deactivation
sequence. -/
lemma stepState_alarmState (i : Inputs) (s : SysState) :
    (stepState i s).alarmState
      = ((s.alarmState || (i.gasDetector || i.overTempDetector))
          && !validDeactivationObserved i s) := by
  rw [(stepState_proj i s).1, deactivation_alarmState, validDeactivationObserved,
    activation_alarmState, (activation_rest i s).1, (activation_rest i s).2.1]

/-- The alarm LED after one iteration shows the alarm flag as it stood at
the activation update, hazards included. -/
lemma stepState_alarmLed (i : Inputs) (s : SysState) :
    (stepState i s).alarmLed
      = (s.alarmState || (i.gasDetector || i.overTempDetector)) := by
  rw [(stepState_proj i s).2.1, deactivation_alarmLed, activation_alarmLed]

/-- Timer evolution over one iteration: reset to zero on emission, else
accumulated. -/
lemma stepState_timer (i : Inputs) (s : SysState) :
    (stepState i s).timerElapsed
      = (if 5 ≤ s.timerElapsed + i.dt then 0 else s.timerElapsed + i.dt) := by
  rw [stepState_def]
  dsimp only
  rw [deactivation_timer, (activation_rest i s).2.2.2]
  split <;> simp


lemma deactivation_frozen (i : Inputs) (s : SysState)
    (hled : s.incorrectCodeLed = true) (he : i.enterButton = true) :
    (alarmDeactivationUpdate i s).numberOfIncorrectCodes = s.numberOfIncorrectCodes
      ∧ (alarmDeactivationUpdate i s).alarmState = s.alarmState
      ∧ (alarmDeactivationUpdate i s).incorrectCodeLed = true := by
  by_cases hn : s.numberOfIncorrectCodes < 5 <;>
    simp [alarmDeactivationUpdate, hn, hled, he]

lemma deactivation_no_clear (i : Inputs) (s : SysState)
    (h : clearConditionMet i s = false) :
    ((alarmDeactivationUpdate i s).numberOfIncorrectCodes = s.numberOfIncorrectCodes
        ∧ (alarmDeactivationUpdate i s).incorrectCodeLed = s.incorrectCodeLed)
      ∨ (s.incorrectCodeLed = false
          ∧ ((alarmDeactivationUpdate i s).numberOfIncorrectCodes = 0
                ∧ (alarmDeactivationUpdate i s).incorrectCodeLed = false
              ∨ (alarmDeactivationUpdate i s).numberOfIncorrectCodes
                    = s.numberOfIncorrectCodes + 1
                ∧ (alarmDeactivationUpdate i s).incorrectCodeLed = true)) := by
  rcases s with ⟨al, n, aled, icl, sbl, t⟩
  by_cases hn : n < 5 <;>
    cases he : i.enterButton <;> cases hicl : icl <;> cases hal : al <;>
    cases ha : i.aButton <;> cases hb : i.bButton <;> cases hc : i.cButton <;>
    cases hd : i.dButton <;>
    simp [clearConditionMet, hn, he, ha, hb, hc, hd] at h <;>
    simp [alarmDeactivationUpdate, hn, he, hicl, hal, ha, hb, hc, hd]

lemma run_latched (l : List Inputs) :
    ∀ s : SysState, s.alarmState = true → noDeactivationObserved s l = true →
      (runState s l).alarmState = true := by
  induction l with
  | nil => intro s h _; simpa [runState] using h
  | cons i l ih =>
    intro s h hno
    simp only [noDeactivationObserved, Bool.and_eq_true, Bool.not_eq_true'] at hno
    rw [runState_cons]
    exact ih _ (by rw [stepState_alarmState, h, hno.1]; rfl) hno.2



/-- C1: once a hazard sensor reads true at a sample, the alarm flag is
true at the end of that iteration and of every later iteration as long as
no iteration observes the valid deactivation sequence, even when the
sensors read false on all later samples. -/
theorem alarm_latched_until_valid_deactivation
    (s : SysState) (trig : Inputs) (rest : List Inputs)
    (hHaz : trig.gasDetector = true ∨ trig.overTempDetector = true)
    (hNo : noDeactivationObserved s (trig :: rest) = true) :
    (stepState trig s).alarmState = true
      ∧ (runState s (trig :: rest)).alarmState = true := by
  simp only [noDeactivationObserved, Bool.and_eq_true, Bool.not_eq_true'] at hNo
  have hstep : (stepState trig s).alarmState = true := by
    rw [stepState_alarmState, hNo.1]
    rcases hHaz with h | h <;> simp [h]
  exact ⟨hstep, by rw [runState_cons]; exact run_latched rest _ hstep hNo.2⟩

theorem alarm_latched_witness :
    ((({ idleInputs with gasDetector := true } : Inputs).gasDetector = true
        ∨ ({ idleInputs with gasDetector := true } : Inputs).overTempDetector = true)
      ∧ noDeactivationObserved initialState
          ({ idleInputs with gasDetector := true } :: [idleInputs, idleInputs]) = true)
    ∧ (runState initialState
        ({ idleInputs with gasDetector := true } :: [idleInputs, idleInputs])).alarmState
          = true := by
  have hno : noDeactivationObserved initialState
      ({ idleInputs with gasDetector := true } :: [idleInputs, idleInputs]) = true := by
    norm_num [noDeactivationObserved, validDeactivationObserved, initialState, idleInputs,
      alarmActivationUpdate, stepState_def, alarmDeactivationUpdate]
  refine ⟨⟨Or.inl rfl, hno⟩, ?_⟩
  exact (alarm_latched_until_valid_deactivation initialState
    { idleInputs with gasDetector := true } [idleInputs, idleInputs]
    (Or.inl rfl) hno).2

/-- C2: below the lockout threshold, with enter pressed, the
incorrect-code LED off and the alarm active, the deactivation update
deactivates the alarm and resets the counter exactly on the pattern a and
b pressed with c and d released, and on every other button combination
lights the incorrect-code LED and increments the counter by one. -/
theorem deactivation_code_evaluation (s : SysState) (i : Inputs)
    (hn : s.numberOfIncorrectCodes < 5) (he : i.enterButton = true)
    (hled : s.incorrectCodeLed = false) (hal : s.alarmState = true) :
    ((i.aButton && i.bButton && !i.cButton && !i.dButton) = true →
        (alarmDeactivationUpdate i s).alarmState = false
          ∧ (alarmDeactivationUpdate i s).numberOfIncorrectCodes = 0)
      ∧ ((i.aButton && i.bButton && !i.cButton && !i.dButton) = false →
        (alarmDeactivationUpdate i s).incorrectCodeLed = true
          ∧ (alarmDeactivationUpdate i s).numberOfIncorrectCodes
              = s.numberOfIncorrectCodes + 1) := by
  constructor <;> intro hp <;>
    simp [alarmDeactivationUpdate, hn, he, hled, hal, hp]

theorem deactivation_code_evaluation_witness :
    ((initialState : SysState).numberOfIncorrectCodes < 5
        ∧ ({ idleInputs with enterButton := true, aButton := true, bButton := true } : Inputs).enterButton
            = true)
    ∧ (alarmDeactivationUpdate
          { idleInputs with enterButton := true, aButton := true, bButton := true }
          { initialState with alarmState := true }).alarmState = false
    ∧ (alarmDeactivationUpdate { idleInputs with enterButton := true }
          { initialState with alarmState := true }).numberOfIncorrectCodes = 0 + 1 := by
  refine ⟨⟨by decide, rfl⟩, ?_, ?_⟩
  · exact ((deactivation_code_evaluation { initialState with alarmState := true }
      { idleInputs with enterButton := true, aButton := true, bButton := true }
      (by decide) rfl rfl rfl).1 (by decide)).1
  · exact ((deactivation_code_evaluation { initialState with alarmState := true }
      { idleInputs with enterButton := true }
      (by decide) rfl rfl rfl).2 (by decide)).2

/-- C3 counterexample: when the alarm is active and the valid deactivation
sequence is entered, that iteration ends with the alarm flag false but the
alarm LED still true, so the LED is not a pure projection of `alarmState`
at the end of every iteration. -/
theorem alarmLed_lags_on_deactivation :
    (stepState { idleInputs with aButton := true, bButton := true, enterButton := true }
        { initialState with alarmState := true }).alarmLed = true
      ∧ (stepState { idleInputs with aButton := true, bButton := true, enterButton := true }
        { initialState with alarmState := true }).alarmState = false := by
  constructor
  · rw [stepState_alarmLed]; rfl
  · rw [stepState_alarmState]; rfl

/-- C3 amended: after one full loop iteration the alarm LED equals the
alarm flag as it stood at the activation update (the prior flag or a
current hazard); this equals the end-of-iteration alarm flag except in an
iteration that observes the valid deactivation sequence, where the LED
stays true until the next iteration. -/
theorem alarmLed_projection_amended (i : Inputs) (s : SysState) :
    (stepState i s).alarmLed = (s.alarmState || (i.gasDetector || i.overTempDetector))
      ∧ (validDeactivationObserved i s = false →
          (stepState i s).alarmLed = (stepState i s).alarmState) := by
  refine ⟨stepState_alarmLed i s, fun h => ?_⟩
  rw [stepState_alarmLed, stepState_alarmState, h]
  simp

theorem alarmLed_projection_amended_witness :
    validDeactivationObserved { idleInputs with gasDetector := true } initialState = false
      ∧ (stepState { idleInputs with gasDetector := true } initialState).alarmLed
          = (stepState { idleInputs with gasDetector := true } initialState).alarmState := by
  refine ⟨by decide, ?_⟩
  exact (alarmLed_projection_amended { idleInputs with gasDetector := true } initialState).2
    (by decide)

/-- C4 counterexample: with the incorrect-code LED on, the counter at 0
and all four code buttons released (reading false) while enter is not
pressed, the deactivation update leaves the LED on, so releasing the
buttons does not clear the indicator. -/
theorem releasing_buttons_does_not_clear :
    (alarmDeactivationUpdate idleInputs
        { initialState with incorrectCodeLed := true }).incorrectCodeLed = true := by
  decide

/-- C4 amended: whenever the lockout counter is below 5, pressing all four
code-entry buttons (all four reading true) while the enter button is not
pressed causes the deactivation update to clear the incorrect-code
indicator. -/
theorem pressing_all_buttons_clears_indicator (s : SysState) (i : Inputs)
    (hn : s.numberOfIncorrectCodes < 5)
    (ha : i.aButton = true) (hb : i.bButton = true)
    (hc : i.cButton = true) (hd : i.dButton = true)
    (he : i.enterButton = false) :
    (alarmDeactivationUpdate i s).incorrectCodeLed = false := by
  simp [alarmDeactivationUpdate, hn, ha, hb, hc, hd, he]

theorem pressing_all_buttons_clears_indicator_witness :
    ((initialState : SysState).numberOfIncorrectCodes < 5
        ∧ ({ idleInputs with aButton := true, bButton := true, cButton := true, dButton := true } : Inputs).aButton = true)
      ∧ (alarmDeactivationUpdate
          { idleInputs with aButton := true, bButton := true, cButton := true, dButton := true }
          { initialState with incorrectCodeLed := true }).incorrectCodeLed = false := by
  refine ⟨⟨by decide, rfl⟩, ?_⟩
  exact pressing_all_buttons_clears_indicator
    { initialState with incorrectCodeLed := true }
    { idleInputs with aButton := true, bButton := true, cButton := true, dButton := true }
    (by decide) rfl rfl rfl rfl rfl

lemma stepState_n_cases (i : Inputs) (s : SysState) :
    (stepState i s).numberOfIncorrectCodes = s.numberOfIncorrectCodes
      ∨ (stepState i s).numberOfIncorrectCodes = 0
      ∨ (s.numberOfIncorrectCodes < 5
          ∧ (stepState i s).numberOfIncorrectCodes = s.numberOfIncorrectCodes + 1) := by
  have h := deactivation_n_cases i (alarmActivationUpdate i s)
  rw [(activation_rest i s).1] at h
  rw [(stepState_proj i s).2.2.1]
  exact h

lemma run_range (l : List Inputs) :
    ∀ s : SysState, 0 ≤ s.numberOfIncorrectCodes → s.numberOfIncorrectCodes ≤ 5 →
      0 ≤ (runState s l).numberOfIncorrectCodes
        ∧ (runState s l).numberOfIncorrectCodes ≤ 5 := by
  induction l with
  | nil => intro s h0 h5; exact ⟨h0, h5⟩
  | cons i l ih =>
    intro s h0 h5
    rw [runState_cons]
    rcases stepState_n_cases i s with h | h | ⟨hlt, h⟩ <;>
      exact ih _ (by omega) (by omega)

lemma stepState_locked (i : Inputs) (s : SysState)
    (h : s.numberOfIncorrectCodes = 5) :
    (stepState i s).numberOfIncorrectCodes = 5
      ∧ (stepState i s).systemBlockedLed = true
      ∧ (stepState i s).alarmState
          = (s.alarmState || (i.gasDetector || i.overTempDetector)) := by
  have hlt : ¬ (alarmActivationUpdate i s).numberOfIncorrectCodes < 5 := by
    rw [(activation_rest i s).1, h]; omega
  have hd := deactivation_locked i _ hlt
  refine ⟨?_, ?_, ?_⟩
  · rw [(stepState_proj i s).2.2.1, hd]
    simpa [(activation_rest i s).1] using h
  · rw [(stepState_proj i s).2.2.2.2, hd]
  · rw [(stepState_proj i s).1, hd]
    simpa using activation_alarmState i s

lemma run_locked (l : List Inputs) :
    ∀ s : SysState, s.numberOfIncorrectCodes = 5 →
      (runState s l).numberOfIncorrectCodes = 5
        ∧ (runState s l).alarmState
            = (s.alarmState || l.any (fun i => i.gasDetector || i.overTempDetector))
        ∧ (l ≠ [] → (runState s l).systemBlockedLed = true) := by
  induction l with
  | nil => intro s h; exact ⟨h, by simp [runState], by simp⟩
  | cons i l ih =>
    intro s h
    have hs := stepState_locked i s h
    have hrec := ih (stepState i s) hs.1
    rw [runState_cons]
    refine ⟨hrec.1, ?_, fun _ => ?_⟩
    · rw [hrec.2.1, hs.2.2]
      simp [Bool.or_assoc]
    · cases l with
      | nil => simpa [runState] using hs.2.1
      | cons j m => exact hrec.2.2 (by simp)

/-- C7: the incorrect-code counter stays within 0 and 5 along every run
from a state in that range, and once it reaches 5 every later iteration
leaves it at 5, latches the system-blocked LED on, and leaves the alarm
flag untouched except for hazard activations, so no attempt (even with
the correct button pattern) can ever deactivate the alarm again. -/
theorem counter_range_and_lockout :
    (∀ (s : SysState) (l : List Inputs),
        0 ≤ s.numberOfIncorrectCodes → s.numberOfIncorrectCodes ≤ 5 →
        0 ≤ (runState s l).numberOfIncorrectCodes
          ∧ (runState s l).numberOfIncorrectCodes ≤ 5)
    ∧ (∀ (s : SysState) (i : Inputs), s.numberOfIncorrectCodes = 5 →
        (stepState i s).numberOfIncorrectCodes = 5
          ∧ (stepState i s).systemBlockedLed = true
          ∧ (stepState i s).alarmState
              = (s.alarmState || (i.gasDetector || i.overTempDetector)))
    ∧ (∀ (s : SysState) (l : List Inputs), s.numberOfIncorrectCodes = 5 →
        (runState s l).numberOfIncorrectCodes = 5
          ∧ (runState s l).alarmState
              = (s.alarmState || l.any (fun i => i.gasDetector || i.overTempDetector))
          ∧ (l ≠ [] → (runState s l).systemBlockedLed = true)) :=
  ⟨fun s l h0 h5 => run_range l s h0 h5,
   fun s i h => stepState_locked i s h,
   fun s l h => run_locked l s h⟩

theorem counter_range_and_lockout_witness :
    ({ initialState with numberOfIncorrectCodes := 5, alarmState := true } : SysState).numberOfIncorrectCodes
        = 5
      ∧ (runState { initialState with numberOfIncorrectCodes := 5, alarmState := true }
          [{ idleInputs with enterButton := true, aButton := true, bButton := true }]).numberOfIncorrectCodes
          = 5
      ∧ (runState { initialState with numberOfIncorrectCodes := 5, alarmState := true }
          [{ idleInputs with enterButton := true, aButton := true, bButton := true }]).alarmState
          = true := by
  have h := counter_range_and_lockout.2.2
    { initialState with numberOfIncorrectCodes := 5, alarmState := true }
    [{ idleInputs with enterButton := true, aButton := true, bButton := true }] rfl
  exact ⟨rfl, h.1, by rw [h.2.1]; rfl⟩


lemma clearConditionMet_activation (i : Inputs) (s : SysState) :
    clearConditionMet i (alarmActivationUpdate i s) = clearConditionMet i s := by
  unfold clearConditionMet
  rw [(activation_rest i s).1]

lemma run_no_clear (l : List Inputs) :
    ∀ (s : SysState) (N : Int), 0 ≤ N →
      s.numberOfIncorrectCodes ≤ N + 1 →
      (s.incorrectCodeLed = false → s.numberOfIncorrectCodes ≤ N) →
      noClearEvents s l = true →
      (runState s l).numberOfIncorrectCodes ≤ N + 1 := by
  induction l with
  | nil => intro s N _ h1 _ _; exact h1
  | cons i l ih =>
    intro s N hN h1 h2 hnc
    simp only [noClearEvents, Bool.and_eq_true, Bool.not_eq_true'] at hnc
    rw [runState_cons]
    have hcl : clearConditionMet i (alarmActivationUpdate i s) = false := by
      rw [clearConditionMet_activation]; exact hnc.1
    have hd := deactivation_no_clear i (alarmActivationUpdate i s) hcl
    rw [(activation_rest i s).1, (activation_rest i s).2.1] at hd
    refine ih (stepState i s) N hN ?_ ?_ hnc.2
    · rw [(stepState_proj i s).2.2.1]
      rcases hd with ⟨hn, _⟩ | ⟨hled, ⟨hn, _⟩ | ⟨hn, _⟩⟩ <;> rw [hn] <;>
        [exact h1; omega; exact by have := h2 hled; omega]
    · intro hstep
      rw [(stepState_proj i s).2.2.2.1] at hstep
      rw [(stepState_proj i s).2.2.1]
      rcases hd with ⟨hn, hl⟩ | ⟨hled, ⟨hn, hl⟩ | ⟨hn, hl⟩⟩
      · rw [hn]; exact h2 (by rw [← hl]; exact hstep)
      · rw [hn]; exact hN
      · rw [hl] at hstep; exact absurd hstep (by simp)

/-- C10: while the incorrect-code LED is on, pressing enter leaves the
counter, the alarm flag and the LED unchanged (the button combination is
not evaluated), and along any run in which no iteration satisfies the
LED-clear condition the counter grows by at most one. -/
theorem incorrect_code_led_gates_attempts :
    (∀ (i : Inputs) (s : SysState), s.incorrectCodeLed = true → i.enterButton = true →
        (alarmDeactivationUpdate i s).numberOfIncorrectCodes = s.numberOfIncorrectCodes
          ∧ (alarmDeactivationUpdate i s).alarmState = s.alarmState
          ∧ (alarmDeactivationUpdate i s).incorrectCodeLed = true)
    ∧ (∀ (s : SysState) (l : List Inputs), 0 ≤ s.numberOfIncorrectCodes →
        noClearEvents s l = true →
        (runState s l).numberOfIncorrectCodes ≤ s.numberOfIncorrectCodes + 1) :=
  ⟨fun i s hled he => deactivation_frozen i s hled he,
   fun s l h0 hnc => run_no_clear l s s.numberOfIncorrectCodes h0 (by omega) (fun _ => le_refl _) hnc⟩

theorem incorrect_code_led_gates_attempts_witness :
    (({ initialState with incorrectCodeLed := true, alarmState := true } : SysState).incorrectCodeLed
          = true
        ∧ (alarmDeactivationUpdate { idleInputs with enterButton := true, aButton := true, bButton := true }
            { initialState with incorrectCodeLed := true, alarmState := true }).numberOfIncorrectCodes
            = 0)
      ∧ (noClearEvents { initialState with incorrectCodeLed := true }
            [{ idleInputs with enterButton := true }] = true
          ∧ (runState { initialState with incorrectCodeLed := true }
              [{ idleInputs with enterButton := true }]).numberOfIncorrectCodes ≤ 0 + 1) := by
  constructor
  · refine ⟨rfl, ?_⟩
    exact (incorrect_code_led_gates_attempts.1
      { idleInputs with enterButton := true, aButton := true, bButton := true }
      { initialState with incorrectCodeLed := true, alarmState := true } rfl rfl).1
  · refine ⟨by decide, ?_⟩
    exact incorrect_code_led_gates_attempts.2
      { initialState with incorrectCodeLed := true }
      [{ idleInputs with enterButton := true }] (by decide) (by decide)

/-- C5 (code bug): on byte '2' with the gas sensor reading true the
handler emits exactly the 15 bytes of "Gas detected!" CR LF, but with the
sensor reading false it passes length 18 for the 17-character literal
"No gas detected" CR LF, so a stray NUL terminator byte is transmitted
after the line. -/
theorem uartTask_gas_query_bytes :
    uartTask { idleInputs with uartIn := some '2', gasDetector := true } initialState
        = [("Gas detected!" ++ "\r\n").data]
      ∧ uartTask { idleInputs with uartIn := some '2' } initialState
        = [("No gas detected" ++ "\r\n").data ++ [Char.ofNat 0]]
      ∧ (("No gas detected" ++ "\r\n").data ++ [Char.ofNat 0]).length = 18 := by
  refine ⟨?_, ?_, by decide⟩ <;> decide

/-- C6 (code bug): any byte outside the three commands prints the help
text, but the second help line is passed with length 33 instead of its 34
characters (its final newline is dropped) and the third with length 32
instead of its 31 characters (a stray NUL follows its CR LF), so the
emitted bytes differ from the four exact literals. -/
theorem availableCommands_bytes :
    uartTask { idleInputs with uartIn := some 'x' } initialState = availableCommands
      ∧ availableCommands
        = [ ("Available commands:" ++ "\r\n").data
          , ("Press '1' to get the alarm state" ++ "\r").data
          , ("Press '2' to check gas status" ++ "\r\n").data ++ [Char.ofNat 0]
          , ("Press '3' to check temperature status" ++ "\r\n\r\n").data ] := by
  exact ⟨by decide, by decide⟩

/-- C9: an iteration emits no warning write when both sensors read false;
when the gas sensor reads true exactly one gas warning write occurs, and
independently when the over-temperature sensor reads true exactly one
temperature warning write occurs. -/
theorem warning_emission_per_iteration (i : Inputs) :
    (i.gasDetector = false → i.overTempDetector = false → sendWarningIfNeeded i = [])
      ∧ (sendWarningIfNeeded i).count (cwrite "[WARNING] Gas levels unsafe!\r\n" 29)
          = (if i.gasDetector then 1 else 0)
      ∧ (sendWarningIfNeeded i).count (cwrite "[WARNING] Temperature too high!\r\n" 33)
          = (if i.overTempDetector then 1 else 0)
      ∧ (sendWarningIfNeeded i).length
          = (if i.gasDetector then 1 else 0) + (if i.overTempDetector then 1 else 0) := by
  cases hg : i.gasDetector <;> cases ht : i.overTempDetector <;>
    refine ⟨fun h1 h2 => ?_, ?_, ?_, ?_⟩ <;>
    simp_all [sendWarningIfNeeded] <;> decide

theorem warning_emission_witness :
    (sendWarningIfNeeded idleInputs = [])
      ∧ (sendWarningIfNeeded { idleInputs with gasDetector := true }).length = 1 := by
  constructor
  · exact (warning_emission_per_iteration idleInputs).1 rfl rfl
  · have h := (warning_emission_per_iteration { idleInputs with gasDetector := true }).2.2.2
    simpa using h

lemma uartTask_no_report (i : Inputs) (s : SysState) :
    (uartTask i s).countP isReportMsg = 0 := by
  cases hu : i.uartIn with
  | none => simp [uartTask, hu]
  | some c =>
    by_cases h1 : c = '1'
    · cases hal : s.alarmState <;> simp [uartTask, hu, h1, hal] <;> decide
    · by_cases h2 : c = '2'
      · cases hg : i.gasDetector <;> simp [uartTask, hu, h1, h2, hg] <;> decide
      · by_cases h3 : c = '3'
        · cases ht : i.overTempDetector <;> simp [uartTask, hu, h1, h2, h3, ht] <;> decide
        · simp [uartTask, hu, h1, h2, h3]; decide

lemma warnings_no_report (i : Inputs) :
    (sendWarningIfNeeded i).countP isReportMsg = 0 := by
  cases hg : i.gasDetector <;> cases ht : i.overTempDetector <;>
    simp [sendWarningIfNeeded, hg, ht] <;> decide

lemma report_is_report (i : Inputs) (s : SysState) :
    isReportMsg (sendStatusReport i s) = true := by
  cases hal : s.alarmState <;> cases hg : i.gasDetector <;> cases ht : i.overTempDetector <;>
    simp [sendStatusReport, hal, hg, ht] <;> decide

lemma report_count_step (i : Inputs) (s : SysState) :
    (stepOut i s).countP isReportMsg = (if 5 ≤ s.timerElapsed + i.dt then 1 else 0) := by
  rw [stepOut_def]
  dsimp only
  rw [List.countP_append, List.countP_append, uartTask_no_report, warnings_no_report,
    deactivation_timer, (activation_rest i s).2.2.2]
  split
  · simp [List.countP_cons, report_is_report]
  · simp

lemma timer_accumulates (l : List Inputs) :
    ∀ s : SysState, noReportEmitted s l = true →
      (runState s l).timerElapsed = s.timerElapsed + (l.map Inputs.dt).sum := by
  induction l with
  | nil => intro s _; simp [runState]
  | cons i l ih =>
    intro s h
    simp only [noReportEmitted, Bool.and_eq_true, Bool.not_eq_true'] at h
    have hlt : ¬ 5 ≤ s.timerElapsed + i.dt := by
      have h1 := h.1
      unfold reportEmitted at h1
      simpa using h1
    rw [runState_cons, ih _ h.2, stepState_timer, if_neg hlt]
    simp [add_assoc]

/-- C8: an iteration emits the status report exactly once when the timer
reading (elapsed time plus this iteration's increment) has reached 5 and
not at all otherwise, and the timer is reset to zero exactly on emission;
consequently, starting from a reset, if no intermediate iteration emits,
an emitting iteration only occurs once at least 5 time units have
accumulated, whatever UART traffic the intermediate iterations carry. -/
theorem periodic_report_timing :
    (∀ (i : Inputs) (s : SysState),
        (stepOut i s).countP isReportMsg = (if 5 ≤ s.timerElapsed + i.dt then 1 else 0)
          ∧ (stepState i s).timerElapsed
              = (if 5 ≤ s.timerElapsed + i.dt then 0 else s.timerElapsed + i.dt))
    ∧ (∀ (s : SysState) (l : List Inputs) (last : Inputs),
        s.timerElapsed = 0 → noReportEmitted s l = true →
        reportEmitted last (runState s l) = true →
        5 ≤ (l.map Inputs.dt).sum + last.dt) := by
  constructor
  · exact fun i s => ⟨report_count_step i s, stepState_timer i s⟩
  · intro s l last h0 hno hlast
    have hacc := timer_accumulates l s hno
    rw [h0, zero_add] at hacc
    unfold reportEmitted at hlast
    rw [hacc] at hlast
    simpa using hlast

theorem periodic_report_timing_witness :
    ((stepOut { idleInputs with dt := 5 } initialState).countP isReportMsg = 1
        ∧ (stepOut { idleInputs with dt := 3 } initialState).countP isReportMsg = 0)
      ∧ ((initialState : SysState).timerElapsed = 0
          ∧ noReportEmitted initialState [{ idleInputs with dt := 3 }] = true
          ∧ reportEmitted { idleInputs with dt := 2 }
              (runState initialState [{ idleInputs with dt := 3 }]) = true
          ∧ 5 ≤ ([{ idleInputs with dt := 3 }].map Inputs.dt).sum
              + ({ idleInputs with dt := 2 } : Inputs).dt) := by
  have hp := periodic_report_timing
  have hno : noReportEmitted initialState [{ idleInputs with dt := 3 }] = true := by
    norm_num [noReportEmitted, reportEmitted, initialState, idleInputs]
  have hlast : reportEmitted { idleInputs with dt := 2 }
      (runState initialState [{ idleInputs with dt := 3 }]) = true := by
    norm_num [reportEmitted, runState, stepState_timer, initialState, idleInputs]
  constructor
  · constructor
    · rw [(hp.1 { idleInputs with dt := 5 } initialState).1]
      norm_num [initialState, idleInputs]
    · rw [(hp.1 { idleInputs with dt := 3 } initialState).1]
      norm_num [initialState, idleInputs]
  · exact ⟨rfl, hno, hlast,
      hp.2 initialState [{ idleInputs with dt := 3 }] { idleInputs with dt := 2 } rfl hno hlast⟩

end AlarmSystem
